import Mathlib

/-!
Shallow embedding of the core of the `autogen_telegram_bot` repository:

* message classification and handling — `src/core/agent_system.py`
  (`AgentSystem._handle_message`, `AgentSystem.run_task`);
* the Telegram delivery sink — `src/bot/interface.py`
  (`TelegramInterface.send_message`, `TelegramInterface._format_message`);
* the session registry — `src/core/session_manager.py`
  (`Session`, `SessionManager`);
* the task entry point — `src/bot/handlers.py` (`handle_message`).

Python strings are modelled as Lean `String` (the markers the code matches
on are all ASCII, so `Char.toLower`/`Char.toUpper` coincide with Python's
`str.lower`/`str.upper` on every character that matters).  Python objects
held by reference are modelled with an explicit reference heap, so that
`del sessions[chat_id]` (which removes only the registry entry, not the
object) keeps its aliasing behaviour.  The external collaborators (the
LLM backend, the group-chat loop's produced turns, the Telegram transport)
enter as oracle parameters.
-/

/-! ### Python string primitives -/

/-- The whitespace set of Python `str.strip()` (ASCII part). -/
def pyIsSpace (c : Char) : Bool :=
  c = ' ' || c = '\t' || c = '\n' || c = '\r' || c = Char.ofNat 11 || c = Char.ofNat 12

/-- Python `str.strip()` on a character list. -/
def pyStripList (l : List Char) : List Char :=
  ((l.dropWhile pyIsSpace).reverse.dropWhile pyIsSpace).reverse

/-- Python `str.strip()`. -/
def pyStrip (s : String) : String := String.mk (pyStripList s.data)

/-- Python substring containment, `pat in hay`. -/
def containsSub : List Char → List Char → Bool
  | hay, pat =>
    match hay with
    | [] => pat.isEmpty
    | c :: t => pat.isPrefixOf (c :: t) || containsSub t pat

/-- Python `pat in hay` on strings. -/
def containsStr (hay pat : String) : Bool := containsSub hay.data pat.data

/-- Python `str.lower()` (ASCII range; every marker the code compares is ASCII). -/
def lowerStr (s : String) : String := String.mk (s.data.map Char.toLower)

/-- Python `str.upper()` (ASCII range). -/
def upperStr (s : String) : String := String.mk (s.data.map Char.toUpper)

/-- Python `str.replace(pat, repl)`, fuelled so that the recursion is
structural (each step consumes at least one character, so fuel = input
length suffices; with exhausted fuel the rest is returned unchanged, which
never happens from `replaceList`). -/
def replaceListFuel (pat repl : List Char) : Nat → List Char → List Char
  | 0, l => l
  | _ + 1, [] => []
  | fuel + 1, c :: t =>
    if pat.isPrefixOf (c :: t) && !pat.isEmpty then
      repl ++ replaceListFuel pat repl fuel (t.drop (pat.length - 1))
    else
      c :: replaceListFuel pat repl fuel t

/-- Python `str.replace(pat, repl)`: replace the non-overlapping occurrences
of `pat` left to right.  Every pattern used in this development is a
non-empty literal (an empty pattern is rejected by the guard above). -/
def replaceList (pat repl : List Char) (l : List Char) : List Char :=
  replaceListFuel pat repl l.length l

/-- Python `s.replace(pat, repl)` on strings. -/
def pyReplace (s pat repl : String) : String :=
  String.mk (replaceList pat.data repl.data s.data)

/-! ### MessageClassifier — the branch structure of `AgentSystem._handle_message` -/

/-- Classification of one produced utterance (spec §4.2): service noise,
termination with extracted payload, or forwardable content (with the
executor-output display tag). -/
inductive Classification where
  | Service : Classification
  | Termination (payload : String) : Classification
  | Content (payload : String) (execTag : Bool) : Classification
deriving Repr, DecidableEq

/-- The meta/control signature test of `_handle_message`:
`"Next speaker:" in content or "next speaker" in content.lower() or "##" in content.lower()`. -/
def isServiceContent (content : String) : Bool :=
  containsStr content "Next speaker:" || containsStr (lowerStr content) "next speaker" ||
    containsStr (lowerStr content) "##"

/-- Case-insensitive termination-token detection: `"TERMINATE" in content.upper()`. -/
def hasTerminate (content : String) : Bool :=
  containsStr (upperStr content) "TERMINATE"

/-- Executor-output display test: code-execution banner or exit-status marker. -/
def isExecTag (content : String) : Bool :=
  containsStr content ">>>>>>>> EXECUTING CODE BLOCK" || containsStr content "exitcode:"

/-- The classification decision of `_handle_message`, read off its branch
structure: strip, drop empty and service text, detect the termination token
case-insensitively and extract the payload with
`content.replace("TERMINATE", "").strip()`, otherwise content. -/
def classify (raw : String) : Classification :=
  let content := pyStrip raw
  if content = "" then Classification.Service
  else if isServiceContent content then Classification.Service
  else if hasTerminate content then
    Classification.Termination (pyStrip (pyReplace content "TERMINATE" ""))
  else Classification.Content content (isExecTag content)

/-- `true` exactly on `Classification.Termination`. -/
def isTermClass : Classification → Bool
  | Classification.Termination _ => true
  | _ => false

/-! ### AgentSystem — handler state, sink events, `_handle_message`, `run_task` -/

/-- The mutable fields of `AgentSystem` that the handler updates. -/
structure AgentState where
  termination_detected : Bool
  last_message : String
deriving Repr, DecidableEq

/-- User-visible events: a direct `reply_text` or a sink delivery with a
display role. -/
inductive BotEvent where
  | reply (text : String) : BotEvent
  | send (text : String) (role : String) : BotEvent
deriving Repr, DecidableEq

namespace AgentSystem

/-- `AgentSystem.ROLES`. -/
def ROLES : List (String × String) :=
  [("user_proxy", "👤 User Proxy"), ("analyst", "🧠 Analyst"),
   ("coder", "👨‍💻 Coder"), ("executor", "⚙️ Executor"), ("manager", "🤖 Manager")]

/-- `self.ROLES.get(agent_name, f"🤖 ...")`. -/
def roleDisplay (agentName : String) : String :=
  ((ROLES.find? (fun p => p.1 == agentName)).map Prod.snd).getD ("🤖 " ++ agentName)

/-- The canonical default final message sent when the stripped payload is empty. -/
def defaultFinalAnswer : String := "✅ Задача успешно выполнена командой экспертов"

/-- Display role of the final answer. -/
def finalRole : String := "🎯 Финальный ответ"

/-- Executor display-role override. -/
def execRole : String := "⚙️ Executor (Код)"

/-- `AgentSystem.__init__`: `termination_detected = False`, `last_message = ""`. -/
def initialState : AgentState := { termination_detected := false, last_message := "" }

/-- `AgentSystem._handle_message`: returns the updated state, the
should-terminate flag, and the messages emitted to the Telegram sink. -/
def handle_message (st : AgentState) (agentName : String) (messages : List String) :
    AgentState × Bool × List BotEvent :=
  match messages.getLast? with
  | none => (st, false, [])
  | some raw =>
    match classify raw with
    | Classification.Service => (st, false, [])
    | Classification.Termination p =>
      let final := if p = "" then defaultFinalAnswer else p
      ({ termination_detected := true, last_message := final }, true,
        [BotEvent.send final finalRole])
    | Classification.Content p execTag =>
      let roleDisp := if execTag then execRole else roleDisplay agentName
      (st, false, [BotEvent.send p roleDisp])

/-- One group-chat run: `_handle_message` applied to each produced turn in
order (each turn is the sending agent's name with the message list it sees,
the last entry being the produced utterance), stopping when a handler
signals termination. -/
def runTurns : AgentState → List (String × List String) → AgentState × List BotEvent
  | st, [] => (st, [])
  | st, (name, msgs) :: rest =>
    let r := handle_message st name msgs
    if r.2.1 then (r.1, r.2.2)
    else
      let rr := runTurns r.1 rest
      (rr.1, r.2.2 ++ rr.2)

/-- `AgentSystem.run_task`: run the chat and return
`(termination_detected, last_message)`; an exception raised by the external
collaborator (`fail`) is re-raised after the turns processed so far, and no
result pair is returned in that case. -/
def run_task (turns : List (String × List String)) (fail : Option String) :
    Except String (Bool × String) × List BotEvent :=
  let r := runTurns initialState turns
  match fail with
  | some e => (Except.error e, r.2)
  | none => (Except.ok (r.1.termination_detected, r.1.last_message), r.2)

end AgentSystem

/-! ### TelegramInterface — `src/bot/interface.py` -/

namespace TelegramInterface

/-- One attempt made against the Telegram transport: the HTML-formatted
delivery or the plain-text fallback. -/
inductive SendAttempt where
  | html (text : String) : SendAttempt
  | plain (text : String) : SendAttempt
deriving Repr, DecidableEq

/-- Literal head of the code-execution banner regex. -/
def bannerHead : List Char := ">>>>>>>> EXECUTING CODE BLOCK ".data

/-- Literal middle of the banner regex, between the digits and the word. -/
def bannerMid : List Char := " (inferred language is ".data

/-- Literal tail of the banner regex. -/
def bannerTail : List Char := ")...".data

/-- Replacement text of the banner substitution. -/
def bannerRepl : List Char := "💻 <b>Выполнение кода</b>".data

/-- Consume a literal at the head of `l`. -/
def dropLit (lit l : List Char) : Option (List Char) :=
  if lit.isPrefixOf l then some (l.drop lit.length) else none

/-- The regex class `\w` (ASCII: the banner emits ASCII words only). -/
def isWordChar (c : Char) : Bool := c.isAlphanum || c = '_'

/-- One attempted match of the banner regex
`>>>>>>>> EXECUTING CODE BLOCK \d+ \(inferred language is \w+\)\.\.\.` at the
head of `l`; `\d+` and `\w+` are maximal since neither class contains the
following delimiter. -/
def matchBanner (l : List Char) : Option (List Char) :=
  match dropLit bannerHead l with
  | none => none
  | some r₁ =>
    let ds := r₁.takeWhile Char.isDigit
    if ds.isEmpty then none
    else
      match dropLit bannerMid (r₁.drop ds.length) with
      | none => none
      | some r₂ =>
        let ws := r₂.takeWhile isWordChar
        if ws.isEmpty then none
        else dropLit bannerTail (r₂.drop ws.length)

/-- `re.sub` of the banner regex, with fuel: each step consumes at least one
character, so fuel = input length suffices. -/
def subBannerFuel : Nat → List Char → List Char
  | 0, l => l
  | _ + 1, [] => []
  | fuel + 1, c :: t =>
    match matchBanner (c :: t) with
    | some rest => bannerRepl ++ subBannerFuel fuel rest
    | none => c :: subBannerFuel fuel t

/-- `re.sub(banner, "💻 <b>...</b>", content)`. -/
def subBanner (l : List Char) : List Char := subBannerFuel l.length l

/-- Fuelled scan of `re.sub(r"<[^>]+>", "", text)` (each step consumes at
least one character, so fuel = input length suffices). -/
def stripTagsFuel : Nat → List Char → List Char
  | 0, l => l
  | _ + 1, [] => []
  | fuel + 1, c :: t =>
    if c = '<' then
      match t.findIdx? (fun d => d == '>') with
      | some 0 => c :: stripTagsFuel fuel t
      | some (k + 1) => stripTagsFuel fuel (t.drop (k + 2))
      | none => c :: stripTagsFuel fuel t
    else c :: stripTagsFuel fuel t

/-- `re.sub(r"<[^>]+>", "", text)`: drop each `<...>` tag whose body is
non-empty and contains no `>`; a bare `<>` does not match and the scan
resumes at the next character. -/
def stripTags (l : List Char) : List Char := stripTagsFuel l.length l

/-- `TelegramInterface._format_message`. -/
def format_message (text role : String) : String :=
  let content := pyStrip text
  let content :=
    if containsStr content ">>>>>>>> EXECUTING CODE BLOCK" then
      String.mk (subBanner content.data)
    else content
  let content :=
    if containsStr content "exitcode:" then
      pyReplace (pyReplace (pyReplace (pyReplace content
        "exitcode:" "\n<b>Статус:</b>")
        "Code output:" "\n<b>Результат:</b>")
        "execution succeeded" "✅ Успешно")
        "execution failed" "❌ Ошибка"
    else content
  let content :=
    if containsStr content "```python" then
      pyReplace (pyReplace content "```python" "<pre><code class=\x27language-python\x27>")
        "```" "</code></pre>"
    else if containsStr content "```" then
      pyReplace (pyReplace content "```" "<pre><code>") "```" "</code></pre>"
    else content
  "<b>" ++ role ++ "</b>\n\n" ++ content

/-- `TelegramInterface.send_message`: empty or whitespace-only text is
refused with no attempt; otherwise the HTML-formatted delivery is tried and,
on a `TelegramError`, a plain-text fallback with the HTML tags stripped; a
failure of the fallback yields `false` instead of an exception.  The
outcomes of the two transport calls are oracle inputs. -/
def send_message (text role : String) (htmlOutcome fallbackOutcome : Except String Unit) :
    Bool × List SendAttempt :=
  if text = "" || pyStrip text = "" then (false, [])
  else
    let formatted := format_message text role
    match htmlOutcome with
    | Except.ok _ => (true, [SendAttempt.html formatted])
    | Except.error _ =>
      let cleanText := String.mk (stripTags text.data)
      let fallbackText := role ++ "\n\n" ++ cleanText
      match fallbackOutcome with
      | Except.ok _ => (true, [SendAttempt.html formatted, SendAttempt.plain fallbackText])
      | Except.error _ => (false, [SendAttempt.html formatted, SendAttempt.plain fallbackText])

end TelegramInterface

/-! ### Session registry — `src/core/session_manager.py` -/

/-- The fields of `Session`; `bot` and `loop` are opaque external handles,
modelled by their presence. -/
structure Session where
  chat_id : Int
  is_busy : Bool
  bot : Option Unit
  loop : Option Unit
deriving Repr, DecidableEq

/-- The registry together with a reference heap: `sessions` maps chat ids to
references and the heap maps references to `Session` objects.  Python's
`del self.sessions[chat_id]` removes only the table entry; the object stays
reachable through references held elsewhere (e.g. by an in-flight handler),
which the heap keeps. -/
structure SessionManager where
  table : Int → Option Nat
  heap : Nat → Option Session
  nextRef : Nat

namespace SessionManager

/-- `Session.__init__`: `is_busy = False`, `bot = None`, `loop = None`. -/
def freshSession (cid : Int) : Session :=
  { chat_id := cid, is_busy := false, bot := none, loop := none }

/-- `SessionManager.get_session`: return the existing reference or allocate a
fresh `Session` under a fresh reference. -/
def get_session (m : SessionManager) (cid : Int) : SessionManager × Nat :=
  match m.table cid with
  | some r => (m, r)
  | none =>
    let r := m.nextRef
    ({ table := fun c => if c = cid then some r else m.table c,
       heap := fun x => if x = r then some (freshSession cid) else m.heap x,
       nextRef := r + 1 }, r)

/-- `SessionManager.clear_session`: delete the table entry, with no busy
check; the object behind the reference is untouched. -/
def clear_session (m : SessionManager) (cid : Int) : SessionManager :=
  { m with table := fun c => if c = cid then none else m.table c }

/-- Mutate the object behind reference `r` in place. -/
def updateSession (m : SessionManager) (r : Nat) (f : Session → Session) : SessionManager :=
  { m with heap := fun x => if x = r then (m.heap x).map f else m.heap x }

/-- `session.is_busy = b` on the object behind `r`. -/
def setBusy (m : SessionManager) (r : Nat) (b : Bool) : SessionManager :=
  updateSession m r (fun s => { s with is_busy := b })

/-- `Session.set_context`: install the bot and loop handles. -/
def setCtx (m : SessionManager) (r : Nat) : SessionManager :=
  updateSession m r (fun s => { s with bot := some (), loop := some () })

end SessionManager

namespace Session

/-- `Session.run_task`: raise `ValueError` when the context is unset,
otherwise delegate to a fresh `AgentSystem`. -/
def run_task (s : Session) (turns : List (String × List String)) (fail : Option String) :
    Except String (Bool × String) × List BotEvent :=
  if s.bot.isNone || s.loop.isNone then (Except.error "Bot context not set", [])
  else AgentSystem.run_task turns fail

end Session

/-! ### Bot handler — `src/bot/handlers.py` -/

namespace Handlers

/-- Reply sent when the session is busy. -/
def busyNotice : String := "⏳ Задача уже выполняется. Пожалуйста, подождите завершения."

/-- System notice sent before the run starts. -/
def launchNotice : String :=
  "🔄 Запускаю команду экспертов...\n\nВы увидите полный процесс решения задачи в реальном времени."

/-- Display role of the echoed user message. -/
def userRole : String := "👤 Пользователь"

/-- Display role of system notices. -/
def systemRole : String := "ℹ️ Система"

/-- Completion notice when termination was detected. -/
def doneNotice : String := "✅ Работа команды экспертов завершена успешно!"

/-- Completion notice when the dialog ended without the token. -/
def warnNotice : String :=
  "⚠️ Диалог завершился без TERMINATE. Возможно, задача не была полностью решена."

/-- Error notice of the `except` branch. -/
def errorNotice (e : String) : String :=
  "❌ Критическая ошибка: " ++ e ++ "\n\nПожалуйста, попробуйте позже или упростите задачу."

/-- `handlers.handle_message`, the submit-task entry point: reject empty
text, reject a busy session with a wait notice, otherwise mark the session
busy, set its context, run the multi-agent task (whose produced turns and
optional collaborator exception are the oracle `turns`/`fail`), report the
outcome, and release the busy flag in the `finally` block on every exit
path.  Returns the new registry state, the user-visible events, and whether
the multi-agent run was invoked. -/
def handle_message (m : SessionManager) (cid : Int) (rawText : String)
    (turns : List (String × List String)) (fail : Option String) :
    SessionManager × List BotEvent × Bool :=
  let text := pyStrip rawText
  if text = "" then (m, [], false)
  else
    let gr := SessionManager.get_session m cid
    let m₁ := gr.1
    let r := gr.2
    match m₁.heap r with
    | none => (m₁, [], false)
    | some sess =>
      if sess.is_busy then (m₁, [BotEvent.reply busyNotice], false)
      else
        let m₂ := SessionManager.setBusy m₁ r true
        let m₃ := SessionManager.setCtx m₂ r
        let sessCtx : Session := { sess with bot := some (), loop := some () }
        let pre : List BotEvent :=
          [BotEvent.send text userRole, BotEvent.send launchNotice systemRole]
        let run := Session.run_task sessCtx turns fail
        let post : List BotEvent :=
          match run.1 with
          | Except.ok (true, _) => [BotEvent.send doneNotice systemRole]
          | Except.ok (false, _) => [BotEvent.send warnNotice systemRole]
          | Except.error e => [BotEvent.send (errorNotice e) systemRole]
        (SessionManager.setBusy m₃ r false, pre ++ run.2 ++ post, true)

end Handlers

/-! ### ConversationEngine — spec-modelled round loop

Modelled from the spec: the turn loop of §4.3 is provided in the repository
by the external group-chat collaborator configured in
`AgentSystem._create_agents` (`max_round = config.MAX_ROUNDS`); its body is
not part of `src/`.  The spec's loop classifies each produced output with
the classifier above: Service output is invisible (no round, no history),
Termination ends the run recording the payload (or the canonical default
when the payload is empty), Content advances the round counter, and
reaching `max_rounds` ends the run as RoundsExhausted. -/

inductive ConvStatus where
  | Running : ConvStatus
  | Terminated : ConvStatus
  | RoundsExhausted : ConvStatus
deriving Repr, DecidableEq

structure ConvState where
  round : Nat
  maxRounds : Nat
  status : ConvStatus
  lastFinal : String
deriving Repr, DecidableEq

/-- Modelled from the spec: one ConversationEngine step (§4.3.2.c–d). -/
def convStep (st : ConvState) (raw : String) : ConvState :=
  if st.status ≠ ConvStatus.Running then st
  else
    match classify raw with
    | Classification.Service => st
    | Classification.Termination p =>
      { st with status := ConvStatus.Terminated,
                lastFinal := if p = "" then AgentSystem.defaultFinalAnswer else p }
    | Classification.Content _ _ =>
      if st.maxRounds ≤ st.round + 1 then
        { st with round := st.round + 1, status := ConvStatus.RoundsExhausted }
      else { st with round := st.round + 1 }

/-- Modelled from the spec: the initial conversation state (§4.3.1). -/
def convInit (maxRounds : Nat) : ConvState :=
  { round := 0, maxRounds := maxRounds, status := ConvStatus.Running, lastFinal := "" }

/-- Modelled from the spec: a whole run over the produced outputs. -/
def convRun (maxRounds : Nat) (outputs : List String) : ConvState :=
  outputs.foldl convStep (convInit maxRounds)

/-! ### Helper lemmas -/

/-- `_handle_message` on a single-message history, expressed through the
classifier. -/
theorem handle_message_single (st : AgentState) (name raw : String) :
    AgentSystem.handle_message st name [raw] =
      match classify raw with
      | Classification.Service => (st, false, [])
      | Classification.Termination p =>
        let final := if p = "" then AgentSystem.defaultFinalAnswer else p
        ({ termination_detected := true, last_message := final }, true,
          [BotEvent.send final AgentSystem.finalRole])
      | Classification.Content p execTag =>
        (st, false,
          [BotEvent.send p
            (if execTag then AgentSystem.execRole else AgentSystem.roleDisplay name)]) := rfl

/-! ### Claims -/

/-- C3: classification is a pure function of the message text: the reply
flag and the emitted events of `_handle_message` do not depend on the
mutable engine state, and handling the identical history again (after the
state update of the first call) yields the identical outcome. -/
theorem classification_pure_and_idempotent (s₁ s₂ : AgentState) (name : String)
    (msgs : List String) :
    (AgentSystem.handle_message s₁ name msgs).2 = (AgentSystem.handle_message s₂ name msgs).2 ∧
    (AgentSystem.handle_message (AgentSystem.handle_message s₁ name msgs).1 name msgs).2 =
      (AgentSystem.handle_message s₁ name msgs).2 := by
  unfold AgentSystem.handle_message
  cases h : msgs.getLast? with
  | none => simp
  | some raw => cases hc : classify raw <;> simp [hc]

/-- C2: a non-empty, non-whitespace-only text without the termination token
is classified Service exactly when it matches the meta/control signature
(turn-announcement line or routing marker); otherwise it is classified
Content with the trimmed text as payload and is forwarded exactly once to
the sink with its display role. -/
theorem content_or_service_classification (raw name : String) (s : AgentState)
    (hne : pyStrip raw ≠ "")
    (hnt : hasTerminate (pyStrip raw) = false) :
    (isServiceContent (pyStrip raw) = true →
      classify raw = Classification.Service ∧
      (AgentSystem.handle_message s name [raw]).2.2 = []) ∧
    (isServiceContent (pyStrip raw) = false →
      classify raw = Classification.Content (pyStrip raw) (isExecTag (pyStrip raw)) ∧
      (AgentSystem.handle_message s name [raw]).2.2 =
        [BotEvent.send (pyStrip raw)
          (if isExecTag (pyStrip raw) then AgentSystem.execRole
           else AgentSystem.roleDisplay name)]) := by
  constructor
  · intro hs
    have hcl : classify raw = Classification.Service := by
      simp [classify, hne, hs]
    exact ⟨hcl, by rw [handle_message_single, hcl]⟩
  · intro hs
    have hcl : classify raw = Classification.Content (pyStrip raw) (isExecTag (pyStrip raw)) := by
      simp [classify, hne, hs, hnt]
    exact ⟨hcl, by rw [handle_message_single, hcl]⟩

/-- C2 witness: the concrete text "hello" is neither empty nor service nor
terminating, and is forwarded once with the analyst display role. -/
theorem content_or_service_classification_witness :
    pyStrip "hello" ≠ "" ∧ hasTerminate (pyStrip "hello") = false ∧
    (classify "hello" = Classification.Content (pyStrip "hello") (isExecTag (pyStrip "hello")) ∧
      (AgentSystem.handle_message AgentSystem.initialState "analyst" ["hello"]).2.2 =
        [BotEvent.send (pyStrip "hello")
          (if isExecTag (pyStrip "hello") then AgentSystem.execRole
           else AgentSystem.roleDisplay "analyst")]) :=
  ⟨by decide, by decide,
    (content_or_service_classification "hello" "analyst" AgentSystem.initialState
      (by decide) (by decide)).2 (by decide)⟩

/-- C1 counterexample: the claim fails on the code in both halves.  The text
"## TERMINATE" contains the token but is classified Service (the
meta/control check runs first), and the text "  terminate  " yields payload
"terminate" — the lowercase occurrence is detected but not removed, so the
payload is not the empty string and the canonical default is not used. -/
theorem terminate_claim_counterexample :
    classify "## TERMINATE" = Classification.Service ∧
    classify "  terminate  " = Classification.Termination "terminate" ∧
    ("terminate" : String) ≠ "" ∧
    (AgentSystem.handle_message AgentSystem.initialState "analyst" ["  terminate  "]).1.last_message
      = "terminate" := by
  refine ⟨by decide, by decide, by decide, ?_⟩
  rw [handle_message_single]
  decide

/-- C1 amended: for a text whose stripped form is non-empty, does not match
the meta/control signature, and contains the token in any letter case,
classification is Termination and the payload is the stripped text with
every exact-uppercase occurrence of "TERMINATE" removed and whitespace
trimmed; the engine records the payload as the final message when it is
non-empty and the canonical default only when it is empty, and sends
exactly one final delivery. -/
theorem terminate_classification_amended (raw name : String) (s : AgentState)
    (hne : pyStrip raw ≠ "")
    (hns : isServiceContent (pyStrip raw) = false)
    (ht : hasTerminate (pyStrip raw) = true) :
    classify raw = Classification.Termination (pyStrip (pyReplace (pyStrip raw) "TERMINATE" "")) ∧
    (AgentSystem.handle_message s name [raw]).1.termination_detected = true ∧
    (AgentSystem.handle_message s name [raw]).2.1 = true ∧
    (AgentSystem.handle_message s name [raw]).1.last_message =
      (if pyStrip (pyReplace (pyStrip raw) "TERMINATE" "") = "" then AgentSystem.defaultFinalAnswer
       else pyStrip (pyReplace (pyStrip raw) "TERMINATE" "")) ∧
    (AgentSystem.handle_message s name [raw]).2.2 =
      [BotEvent.send ((AgentSystem.handle_message s name [raw]).1.last_message)
        AgentSystem.finalRole] := by
  have hcl : classify raw =
      Classification.Termination (pyStrip (pyReplace (pyStrip raw) "TERMINATE" "")) := by
    simp [classify, hne, hns, ht]
  refine ⟨hcl, ?_, ?_, ?_, ?_⟩ <;> rw [handle_message_single, hcl]

/-- C1 amended witness: "done TERMINATE" is classified Termination with
payload "done". -/
theorem terminate_classification_amended_witness :
    pyStrip "done TERMINATE" ≠ "" ∧ isServiceContent (pyStrip "done TERMINATE") = false ∧
    hasTerminate (pyStrip "done TERMINATE") = true ∧
    classify "done TERMINATE" = Classification.Termination "done" :=
  ⟨by decide, by decide, by decide,
    (terminate_classification_amended "done TERMINATE" "analyst" AgentSystem.initialState
      (by decide) (by decide) (by decide)).1.trans (by decide)⟩

/-- The conversation-loop invariant: the stored bound equals `mr`, the round
counter is within the bound, and a running conversation is strictly below it. -/
def ConvInv (mr : Nat) (st : ConvState) : Prop :=
  st.maxRounds = mr ∧ st.round ≤ mr ∧ (st.status = ConvStatus.Running → st.round < mr)

theorem convStep_inv (mr : Nat) (st : ConvState) (raw : String) (h : ConvInv mr st) :
    ConvInv mr (convStep st raw) := by
  obtain ⟨hm, hle, hrun⟩ := h
  unfold convStep
  split
  · exact ⟨hm, hle, hrun⟩
  · rename_i hs
    have hrunning : st.status = ConvStatus.Running := not_not.mp hs
    have hlt : st.round < mr := hrun hrunning
    split
    · exact ⟨hm, hle, hrun⟩
    · exact ⟨hm, hle, by intro hc; simp at hc⟩
    · split
      · exact ⟨hm, hlt, by intro hc; simp at hc⟩
      · rename_i hmr
        refine ⟨hm, hlt, ?_⟩
        intro _
        simp only [ConvState.mk.injEq]
        omega

theorem convRun_inv (mr : Nat) (outputs : List String) (h0 : 0 < mr) :
    ConvInv mr (convRun mr outputs) := by
  suffices h : ∀ st : ConvState, ConvInv mr st → ConvInv mr (outputs.foldl convStep st) by
    exact h _ ⟨rfl, Nat.zero_le _, fun _ => h0⟩
  intro st hst
  induction outputs generalizing st with
  | nil => exact hst
  | cons a t ih => exact ih _ (convStep_inv mr st a hst)

/-- C4: over any conversation run, the round counter never exceeds
`max_rounds`; a Content-classified output advances the counter by exactly 1
and a Service-classified output leaves it unchanged. -/
theorem round_counter_invariants (maxRounds : Nat) (outputs : List String)
    (h : 0 < maxRounds) :
    (convRun maxRounds outputs).round ≤ maxRounds ∧
    (∀ st raw, st.status = ConvStatus.Running → classify raw = Classification.Service →
      (convStep st raw).round = st.round) ∧
    (∀ st raw p b, st.status = ConvStatus.Running →
      classify raw = Classification.Content p b →
      (convStep st raw).round = st.round + 1) := by
  refine ⟨(convRun_inv maxRounds outputs h).2.1, ?_, ?_⟩
  · intro st raw hs hc
    unfold convStep
    rw [if_neg (by simp [hs]), hc]
  · intro st raw p b hs hc
    unfold convStep
    rw [if_neg (by simp [hs]), hc]
    by_cases hmr : st.maxRounds ≤ st.round + 1
    · rw [if_pos hmr]
    · rw [if_neg hmr]

/-- C4 witness: a bound of 3 with two content outputs stays within the bound. -/
theorem round_counter_invariants_witness :
    0 < 3 ∧ (convRun 3 ["hi there", "## route", "let us go"]).round ≤ 3 :=
  ⟨by decide, (round_counter_invariants 3 ["hi there", "## route", "let us go"] (by decide)).1⟩

/-- `_handle_message` leaves the engine state unchanged and does not signal
termination when the classification of the last message is not Termination. -/
theorem handle_message_no_term (st : AgentState) (n : String) (msgs : List String)
    (h : isTermClass (classify ((msgs.getLast?).getD "")) = false) :
    (AgentSystem.handle_message st n msgs).1 = st ∧
    (AgentSystem.handle_message st n msgs).2.1 = false := by
  unfold AgentSystem.handle_message
  cases hm : msgs.getLast? with
  | none => exact ⟨rfl, rfl⟩
  | some raw =>
    rw [hm, Option.getD_some] at h
    dsimp only
    cases hc : classify raw with
    | Service => exact ⟨rfl, rfl⟩
    | Termination p => rw [hc] at h; simp [isTermClass] at h
    | Content p b => exact ⟨rfl, rfl⟩

/-- `_handle_message` on a Service-classified last message: nothing changes
and nothing reaches the sink. -/
theorem handle_message_service (st : AgentState) (n : String) (msgs : List String)
    (h : classify ((msgs.getLast?).getD "") = Classification.Service) :
    AgentSystem.handle_message st n msgs = (st, false, []) := by
  unfold AgentSystem.handle_message
  cases hm : msgs.getLast? with
  | none => rfl
  | some raw =>
    rw [hm, Option.getD_some] at h
    dsimp only
    rw [h]

theorem runTurns_no_term : ∀ (turns : List (String × List String)) (st : AgentState),
    (∀ t ∈ turns, isTermClass (classify ((t.2.getLast?).getD "")) = false) →
    (AgentSystem.runTurns st turns).1 = st := by
  intro turns
  induction turns with
  | nil => intro st _; rfl
  | cons a rest ih =>
    intro st h
    obtain ⟨n, ms⟩ := a
    have h1 := h (n, ms) (List.mem_cons_self _ _)
    have hh := handle_message_no_term st n ms h1
    unfold AgentSystem.runTurns
    dsimp only
    rw [hh.2]
    simp only [if_false, Bool.false_eq_true]
    rw [hh.1]
    exact ih st (fun t ht => h t (List.mem_cons_of_mem _ ht))

theorem runTurns_service_events : ∀ (turns : List (String × List String)) (st : AgentState),
    (∀ t ∈ turns, classify ((t.2.getLast?).getD "") = Classification.Service) →
    (AgentSystem.runTurns st turns).2 = [] := by
  intro turns
  induction turns with
  | nil => intro st _; rfl
  | cons a rest ih =>
    intro st h
    obtain ⟨n, ms⟩ := a
    have h1 := h (n, ms) (List.mem_cons_self _ _)
    have hh := handle_message_service st n ms h1
    unfold AgentSystem.runTurns
    dsimp only
    rw [hh]
    simpa using ih st (fun t ht => h t (List.mem_cons_of_mem _ ht))

/-- C7: a run in which no produced output is classified Termination returns
`(false, "")`, and when every output is Service-classified noise not a
single delivery reaches the sink. -/
theorem no_termination_returns_false_and_empty (turns : List (String × List String))
    (h : ∀ t ∈ turns, isTermClass (classify ((t.2.getLast?).getD "")) = false) :
    (AgentSystem.run_task turns none).1 = Except.ok (false, "") ∧
    ((∀ t ∈ turns, classify ((t.2.getLast?).getD "") = Classification.Service) →
      (AgentSystem.run_task turns none).2 = []) := by
  constructor
  · unfold AgentSystem.run_task
    dsimp only
    rw [runTurns_no_term turns AgentSystem.initialState h]
    rfl
  · intro h2
    unfold AgentSystem.run_task
    dsimp only
    rw [runTurns_service_events turns AgentSystem.initialState h2]

/-- C7 witness: two Service-classified turns — a speaker announcement and a
routing marker — yield `(false, "")` and an empty sink trace. -/
theorem no_termination_witness :
    (∀ t ∈ ([("manager", ["Next speaker: analyst"]), ("analyst", ["## step"])] :
        List (String × List String)),
      isTermClass (classify ((t.2.getLast?).getD "")) = false) ∧
    (AgentSystem.run_task [("manager", ["Next speaker: analyst"]), ("analyst", ["## step"])]
        none).1 = Except.ok (false, "") ∧
    (AgentSystem.run_task [("manager", ["Next speaker: analyst"]), ("analyst", ["## step"])]
        none).2 = [] :=
  ⟨by decide,
    (no_termination_returns_false_and_empty
      [("manager", ["Next speaker: analyst"]), ("analyst", ["## step"])] (by decide)).1,
    (no_termination_returns_false_and_empty
      [("manager", ["Next speaker: analyst"]), ("analyst", ["## step"])] (by decide)).2
      (by decide)⟩

/-- C8: the sink's deliver operation never raises — it is a total function
into `Bool`.  Empty or whitespace-only text yields `false` with no send
attempt; when the HTML-formatted delivery fails, a plain-text fallback with
the HTML tags stripped is attempted and a success returns `true`; when the
fallback also fails, the result is `false` rather than an exception. -/
theorem send_message_never_raises (text role : String) (h1 h2 : Except String Unit) :
    (pyStrip text = "" → TelegramInterface.send_message text role h1 h2 = (false, [])) ∧
    (pyStrip text ≠ "" →
      ∀ e, h1 = Except.error e →
        (h2 = Except.ok () →
          TelegramInterface.send_message text role h1 h2 =
            (true,
              [TelegramInterface.SendAttempt.html (TelegramInterface.format_message text role),
               TelegramInterface.SendAttempt.plain
                 (role ++ "\n\n" ++ String.mk (TelegramInterface.stripTags text.data))])) ∧
        (∀ e2, h2 = Except.error e2 →
          TelegramInterface.send_message text role h1 h2 =
            (false,
              [TelegramInterface.SendAttempt.html (TelegramInterface.format_message text role),
               TelegramInterface.SendAttempt.plain
                 (role ++ "\n\n" ++ String.mk (TelegramInterface.stripTags text.data))]))) := by
  constructor
  · intro hs
    simp [TelegramInterface.send_message, hs]
  · intro hs e he1
    have hx : text ≠ "" := by
      intro hcontra
      exact hs (by rw [hcontra]; rfl)
    constructor
    · intro he2
      subst he1
      subst he2
      simp [TelegramInterface.send_message, hs, hx]
    · intro e2 he2
      subst he1
      subst he2
      simp [TelegramInterface.send_message, hs, hx]

/-- C8 witness: a failing HTML attempt on "<b>x</b>" falls back to the
tag-stripped plain representation and succeeds. -/
theorem send_message_never_raises_witness :
    pyStrip "<b>x</b>" ≠ "" ∧
    TelegramInterface.send_message "<b>x</b>" "R" (Except.error "bad") (Except.ok ()) =
      (true,
        [TelegramInterface.SendAttempt.html (TelegramInterface.format_message "<b>x</b>" "R"),
         TelegramInterface.SendAttempt.plain
           ("R" ++ "\n\n" ++ String.mk (TelegramInterface.stripTags ("<b>x</b>" : String).data))]) :=
  ⟨by decide,
    ((send_message_never_raises "<b>x</b>" "R" (Except.error "bad") (Except.ok ())).2
      (by decide) "bad" rfl).1 rfl⟩

/-- Reading the heap behind the mutated reference. -/
theorem updateSession_heap_same (m : SessionManager) (r : Nat) (f : Session → Session) :
    (SessionManager.updateSession m r f).heap r = (m.heap r).map f := by
  simp [SessionManager.updateSession]

/-- Reading the heap behind another reference. -/
theorem updateSession_heap_other (m : SessionManager) (r : Nat) (f : Session → Session)
    (x : Nat) (hx : x ≠ r) :
    (SessionManager.updateSession m r f).heap x = m.heap x := by
  simp [SessionManager.updateSession, hx]

/-- Shared reduction of the non-busy path of `handlers.handle_message`: the
run is invoked and the final registry state is the busy-true, context-set,
busy-false update chain on the acquired reference. -/
theorem handle_message_not_busy_reduce (m : SessionManager) (cid : Int) (rawText : String)
    (turns : List (String × List String)) (fail : Option String) (sess : Session)
    (htext : pyStrip rawText ≠ "")
    (hheap : (SessionManager.get_session m cid).1.heap (SessionManager.get_session m cid).2
      = some sess)
    (hbusy : sess.is_busy = false) :
    (Handlers.handle_message m cid rawText turns fail).1 =
      SessionManager.setBusy
        (SessionManager.setCtx
          (SessionManager.setBusy (SessionManager.get_session m cid).1
            (SessionManager.get_session m cid).2 true)
          (SessionManager.get_session m cid).2)
        (SessionManager.get_session m cid).2 false ∧
    (Handlers.handle_message m cid rawText turns fail).2.2 = true := by
  unfold Handlers.handle_message
  dsimp only
  rw [if_neg htext, hheap]
  dsimp only
  rw [if_neg (by simp [hbusy])]
  exact ⟨rfl, rfl⟩

/-- C5: a task submitted while the session is busy is rejected with the wait
notice, the registry state is returned unchanged, and the multi-agent run is
not invoked. -/
theorem busy_conflict_rejected (m : SessionManager) (cid : Int) (rawText : String)
    (turns : List (String × List String)) (fail : Option String) (r : Nat) (sess : Session)
    (htext : pyStrip rawText ≠ "")
    (htab : m.table cid = some r)
    (hheap : m.heap r = some sess)
    (hbusy : sess.is_busy = true) :
    Handlers.handle_message m cid rawText turns fail =
      (m, [BotEvent.reply Handlers.busyNotice], false) := by
  unfold Handlers.handle_message
  dsimp only
  rw [if_neg htext]
  unfold SessionManager.get_session
  rw [htab]
  dsimp only
  rw [hheap]
  dsimp only
  rw [if_pos hbusy]

/-- C5 witness: a registry whose only session is busy rejects a new task for
that owner key without any state change. -/
theorem busy_conflict_rejected_witness :
    pyStrip "task" ≠ "" ∧
    Handlers.handle_message
        ⟨fun c => if c = 1 then some 0 else none,
         fun x => if x = 0 then some ⟨1, true, none, none⟩ else none, 1⟩
        1 "task" [] none =
      (⟨fun c => if c = 1 then some 0 else none,
        fun x => if x = 0 then some ⟨1, true, none, none⟩ else none, 1⟩,
       [BotEvent.reply Handlers.busyNotice], false) :=
  ⟨by decide,
    busy_conflict_rejected
      ⟨fun c => if c = 1 then some 0 else none,
       fun x => if x = 0 then some ⟨1, true, none, none⟩ else none, 1⟩
      1 "task" [] none 0 ⟨1, true, none, none⟩ (by decide) rfl rfl rfl⟩

/-- C6: on every exit path of a started task run — termination, rounds
exhaustion, or a collaborator exception — the session's busy flag is false
afterwards, and a collaborator exception is propagated by `run_task` as an
error, not as a partial result pair. -/
theorem busy_flag_released_on_all_exits (m : SessionManager) (cid : Int) (rawText : String)
    (turns : List (String × List String)) (fail : Option String) (sess : Session)
    (htext : pyStrip rawText ≠ "")
    (hheap : (SessionManager.get_session m cid).1.heap (SessionManager.get_session m cid).2
      = some sess)
    (hbusy : sess.is_busy = false) :
    (∃ s₂ : Session,
      (Handlers.handle_message m cid rawText turns fail).1.heap
          (SessionManager.get_session m cid).2 = some s₂ ∧
        s₂.is_busy = false) ∧
    (Handlers.handle_message m cid rawText turns fail).2.2 = true ∧
    (∀ e, fail = some e → (AgentSystem.run_task turns fail).1 = Except.error e) := by
  obtain ⟨hst, hinv⟩ :=
    handle_message_not_busy_reduce m cid rawText turns fail sess htext hheap hbusy
  refine ⟨?_, hinv, ?_⟩
  · refine ⟨{ sess with is_busy := false, bot := some (), loop := some () }, ?_, rfl⟩
    rw [hst]
    simp [SessionManager.setBusy, SessionManager.setCtx, SessionManager.updateSession, hheap]
  · intro e he
    subst he
    rfl

/-- C6 witness: on an empty registry with a collaborator exception, the
session ends not busy and the error is propagated. -/
theorem busy_flag_released_witness :
    pyStrip "hi" ≠ "" ∧
    ((∃ s₂ : Session,
      (Handlers.handle_message ⟨fun _ => none, fun _ => none, 0⟩ 7 "hi" [] (some "boom")).1.heap
          (SessionManager.get_session ⟨fun _ => none, fun _ => none, 0⟩ 7).2 = some s₂ ∧
        s₂.is_busy = false) ∧
    (Handlers.handle_message ⟨fun _ => none, fun _ => none, 0⟩ 7 "hi" [] (some "boom")).2.2
      = true ∧
    (∀ e, (some "boom" : Option String) = some e →
      (AgentSystem.run_task [] (some "boom")).1 = Except.error e)) :=
  ⟨by decide,
    busy_flag_released_on_all_exits ⟨fun _ => none, fun _ => none, 0⟩ 7 "hi" [] (some "boom")
      (SessionManager.freshSession 7) (by decide) rfl rfl⟩

/-- C9: clearing the session and then getting it again yields a freshly
allocated Session object with busy flag false and no residual state (no
context handles, default fields). -/
theorem clear_then_get_fresh_session (m : SessionManager) (cid : Int) :
    (SessionManager.get_session (SessionManager.clear_session m cid) cid).1.heap
        (SessionManager.get_session (SessionManager.clear_session m cid) cid).2 =
      some (SessionManager.freshSession cid) ∧
    (SessionManager.get_session (SessionManager.clear_session m cid) cid).2 = m.nextRef := by
  have ht : (SessionManager.clear_session m cid).table cid = none := by
    simp [SessionManager.clear_session]
  unfold SessionManager.get_session
  rw [ht]
  simp [SessionManager.clear_session]

/-- C10: clearing a session is unconditional even while it is busy: the
registry entry is removed with no busy check, a subsequent `get_session`
allocates a brand-new Session with busy flag false under a fresh reference,
the orphaned object keeps its busy flag until the in-flight run's release,
that release mutates only the orphaned object (the new Session is
untouched), and a second task for the same owner key is accepted and starts
its run while the first is still in flight. -/
theorem clear_while_busy_orphans_session (m : SessionManager) (cid : Int) (rawText : String)
    (turns : List (String × List String)) (fail : Option String) (r : Nat) (sess : Session)
    (hwf : r < m.nextRef)
    (_htab : m.table cid = some r)
    (hheap : m.heap r = some sess)
    (_hbusy : sess.is_busy = true)
    (htext : pyStrip rawText ≠ "") :
    (SessionManager.clear_session m cid).table cid = none ∧
    (SessionManager.get_session (SessionManager.clear_session m cid) cid).2 = m.nextRef ∧
    (SessionManager.get_session (SessionManager.clear_session m cid) cid).2 ≠ r ∧
    (SessionManager.get_session (SessionManager.clear_session m cid) cid).1.heap
        (SessionManager.get_session (SessionManager.clear_session m cid) cid).2 =
      some (SessionManager.freshSession cid) ∧
    (SessionManager.get_session (SessionManager.clear_session m cid) cid).1.heap r = some sess ∧
    (SessionManager.setBusy
        (SessionManager.get_session (SessionManager.clear_session m cid) cid).1 r false).heap
        (SessionManager.get_session (SessionManager.clear_session m cid) cid).2 =
      some (SessionManager.freshSession cid) ∧
    (Handlers.handle_message
        (SessionManager.get_session (SessionManager.clear_session m cid) cid).1
        cid rawText turns fail).2.2 = true := by
  have hne1 : m.nextRef ≠ r := by omega
  have hne2 : r ≠ m.nextRef := by omega
  refine ⟨?_, ?_, ?_, ?_, ?_, ?_, ?_⟩
  · simp [SessionManager.clear_session]
  · simp [SessionManager.get_session, SessionManager.clear_session]
  · have h2 : (SessionManager.get_session (SessionManager.clear_session m cid) cid).2
        = m.nextRef := by
      simp [SessionManager.get_session, SessionManager.clear_session]
    rw [h2]
    exact hne1
  · simp [SessionManager.get_session, SessionManager.clear_session]
  · simp [SessionManager.get_session, SessionManager.clear_session, hne2, hheap]
  · simp [SessionManager.get_session, SessionManager.clear_session, SessionManager.setBusy,
      SessionManager.updateSession, hne1]
  · simp [Handlers.handle_message, SessionManager.get_session, SessionManager.clear_session,
      htext, SessionManager.freshSession]

/-- A concrete registry for the reset-while-busy scenario: owner key 5 holds
reference 0, whose Session is busy (a run in flight). -/
def demoRegistry : SessionManager :=
  ⟨fun c => if c = 5 then some 0 else none,
   fun x => if x = 0 then some ⟨5, true, none, none⟩ else none, 1⟩

/-- The busy Session object of `demoRegistry`. -/
def demoSession : Session := ⟨5, true, none, none⟩

/-- C10 witness: on the concrete busy registry, clearing and re-getting
yields a fresh non-busy Session under a new reference, the orphan keeps its
state, the in-flight release leaves the new Session untouched, and a second
task is accepted. -/
theorem clear_while_busy_witness :
    (0 : Nat) < demoRegistry.nextRef ∧
    demoRegistry.table 5 = some 0 ∧
    demoRegistry.heap 0 = some demoSession ∧
    demoSession.is_busy = true ∧
    pyStrip "go" ≠ "" ∧
    ((SessionManager.clear_session demoRegistry 5).table 5 = none ∧
     (SessionManager.get_session (SessionManager.clear_session demoRegistry 5) 5).2 =
       demoRegistry.nextRef ∧
     (SessionManager.get_session (SessionManager.clear_session demoRegistry 5) 5).2 ≠ 0 ∧
     (SessionManager.get_session (SessionManager.clear_session demoRegistry 5) 5).1.heap
         (SessionManager.get_session (SessionManager.clear_session demoRegistry 5) 5).2 =
       some (SessionManager.freshSession 5) ∧
     (SessionManager.get_session (SessionManager.clear_session demoRegistry 5) 5).1.heap 0 =
       some demoSession ∧
     (SessionManager.setBusy
         (SessionManager.get_session (SessionManager.clear_session demoRegistry 5) 5).1 0
         false).heap
         (SessionManager.get_session (SessionManager.clear_session demoRegistry 5) 5).2 =
       some (SessionManager.freshSession 5) ∧
     (Handlers.handle_message
         (SessionManager.get_session (SessionManager.clear_session demoRegistry 5) 5).1
         5 "go" [] none).2.2 = true) :=
  ⟨by decide, rfl, rfl, rfl, by decide,
    clear_while_busy_orphans_session demoRegistry 5 "go" [] none 0 demoSession
      (by decide) rfl rfl rfl (by decide)⟩
